import Mathlib

/-!
Verification of the Super KPI service (`src/main.py`): a FastAPI app over two
relational tables (`kpi_master`, `kpi_updates`).  The database is embedded as
explicit state (lists of rows plus the autoincrement counter of the
`kpi_updates` primary key); each HTTP handler becomes a pure function; a
raised `HTTPException` becomes the `Except.error` branch, returned together
with the (unchanged) state.
-/

namespace SuperKPI

/-- `fastapi.HTTPException`: status code plus detail message. -/
structure HTTPException where
  status_code : Nat
  detail : String
deriving DecidableEq, Repr

/-- Row of table `kpi_master` (class `KPIMaster` in `src/main.py`).
`bobot` is a SQL `Float` column; no operation of the service ever reads it,
it is only stored and returned verbatim. -/
structure KPIMaster where
  kpi_id : Int
  fungsi_slug : String
  kpi_name : String
  iku : String
  program_prioritas : String
  bobot : Float
  target : String
  unit : String
  is_active : Bool

/-- Row of table `kpi_updates` (class `KPIUpdates` in `src/main.py`).
`id` is the autoincrement primary key; `reviewed_by` / `reviewed_at` are
nullable `String` columns, hence `Option String`. -/
structure KPIUpdates where
  id : Int
  kpi_id : Int
  fungsi_slug : String
  period : String
  value : String
  link_evidence : String
  note : String
  status : String
  reviewed_by : Option String
  reviewed_at : Option String
deriving DecidableEq, Repr

/-- The persistent state: the two tables, plus the autoincrement counter
that assigns the next `kpi_updates.id`. -/
structure DB where
  kpi_master : List KPIMaster
  kpi_updates : List KPIUpdates
  next_id : Int

/-- Request body schema `KPIUpdateRequest` of `src/main.py`. -/
structure KPIUpdateRequest where
  kpi_id : Int
  fungsi_slug : String
  period : String
  value : String
  link_evidence : String
  note : String
deriving DecidableEq, Repr

/-- Response body of `POST /kpi/update` (the dict literal returned by
`add_kpi_update`). -/
structure AddResponse where
  message : String
  id : Int
  fungsi_slug : String
  status : String
deriving DecidableEq, Repr

/-- Python string interpolation of an `Optional[str]`: `f"{x}"` renders
`None` as the literal text `"None"`. -/
def pyStr (o : Option String) : String :=
  match o with
  | some s => s
  | none => "None"

/-- The expected value of the `Authorization` header:
`f"Bearer {API_TOKEN}"` in `verify_token` of `src/main.py`. -/
def bearerHeader (api_token : Option String) : String :=
  "Bearer " ++ pyStr api_token

/-- `verify_token` of `src/main.py` (lines 15–17): the caller-supplied
`authorization` header (`None` when absent) must equal
`f"Bearer {API_TOKEN}"`, where `API_TOKEN = os.getenv("API_TOKEN")` may be
`None`; otherwise raise 401 Unauthorized. -/
def verify_token (api_token : Option String) (authorization : Option String) :
    Except HTTPException Unit :=
  if authorization = some (bearerHeader api_token) then
    Except.ok ()
  else
    Except.error ⟨401, "Unauthorized"⟩

/-- `GET /` (`root` in `src/main.py`): liveness message. -/
def root : String := "Super KPI API running"

/-- `GET /kpi` (`get_kpi`): every row of `kpi_master`. -/
def get_kpi (db : DB) : List KPIMaster :=
  db.kpi_master

/-- `GET /kpi/{fungsi_slug}` (`get_kpi_by_fungsi`): the rows of
`kpi_master` whose `fungsi_slug` equals the path parameter. -/
def get_kpi_by_fungsi (fungsi_slug : String) (db : DB) : List KPIMaster :=
  db.kpi_master.filter (fun k => k.fungsi_slug == fungsi_slug)

/-- `GET /kpi/updates/{fungsi_slug}` (`get_kpi_updates_by_fungsi`): the rows
of `kpi_updates` whose `fungsi_slug` equals the path parameter. -/
def get_kpi_updates_by_fungsi (fungsi_slug : String) (db : DB) : List KPIUpdates :=
  db.kpi_updates.filter (fun u => u.fungsi_slug == fungsi_slug)

/-- `GET /kpi_master/{fungsi_slug}` (`get_kpi_master_by_fungsi`): alias of
`get_kpi_by_fungsi`. -/
def get_kpi_master_by_fungsi (fungsi_slug : String) (db : DB) : List KPIMaster :=
  db.kpi_master.filter (fun k => k.fungsi_slug == fungsi_slug)

/-- The row inserted by a successful `add_kpi_update` call: the literal
`KPIUpdates(...)` constructed at lines 119–127 of `src/main.py`, with the
autoincrement key it receives on commit. -/
def newSubmission (db : DB) (request : KPIUpdateRequest) : KPIUpdates :=
  { id := db.next_id
    kpi_id := request.kpi_id
    fungsi_slug := request.fungsi_slug
    period := request.period
    value := request.value
    link_evidence := request.link_evidence
    note := request.note
    status := "submitted"
    reviewed_by := none
    reviewed_at := none }

/-- `POST /kpi/update` (`add_kpi_update`, lines 103–137 of `src/main.py`).
The `Depends(verify_token)` dependency runs first; then the handler looks up
the KPI by `kpi_id` (`.first()` becomes `List.find?`), raises 404 if absent,
raises 403 if its `fungsi_slug` differs from the request's, and otherwise
appends a fresh `KPIUpdates` row and returns the response dict.  A raised
exception leaves the state untouched, so error branches return `db`
unchanged. -/
def add_kpi_update (api_token : Option String) (authorization : Option String)
    (request : KPIUpdateRequest) (db : DB) :
    DB × Except HTTPException AddResponse :=
  match verify_token api_token authorization with
  | Except.error e => (db, Except.error e)
  | Except.ok _ =>
    match db.kpi_master.find? (fun k => k.kpi_id == request.kpi_id) with
    | none => (db, Except.error ⟨404, "KPI not found"⟩)
    | some kpi =>
      if kpi.fungsi_slug != request.fungsi_slug then
        (db, Except.error ⟨403, "Tidak boleh update KPI milik fungsi lain"⟩)
      else
        let update := newSubmission db request
        ({ db with kpi_updates := db.kpi_updates ++ [update],
                   next_id := db.next_id + 1 },
         Except.ok { message := "KPI update berhasil"
                     id := update.id
                     fungsi_slug := update.fungsi_slug
                     status := update.status })

/-- Modelled from the spec: the Review Service endpoint
`POST /kpi/review/{update_id}` belongs to "the most complete observed
revision" of this repository but is absent from `src/main.py`.  Following
§4.3 and §6 of the spec: bearer-token gate first; `update_id` must reference
an existing `kpi_updates` row, else 404 NotFound; `new_status` must be
`"approved"` or `"rejected"`, else 400 InvalidArgument; on success the
matching row's `status` is set to `new_status`, `reviewed_by` to the
reviewer identity and `reviewed_at` to the current UTC ISO-8601 time
(supplied here as the parameter `now`), and a confirmation message naming
the submission identifier and resulting status is returned. -/
def review_kpi (api_token : Option String) (authorization : Option String)
    (update_id : Int) (new_status : String) (reviewed_by : String)
    (now : String) (db : DB) : DB × Except HTTPException String :=
  match verify_token api_token authorization with
  | Except.error e => (db, Except.error e)
  | Except.ok _ =>
    match db.kpi_updates.find? (fun u => u.id == update_id) with
    | none => (db, Except.error ⟨404, "Update not found"⟩)
    | some _ =>
      if new_status != "approved" && new_status != "rejected" then
        (db, Except.error ⟨400, "Invalid status"⟩)
      else
        ({ db with kpi_updates := db.kpi_updates.map (fun u =>
             if u.id == update_id then
               { u with status := new_status,
                        reviewed_by := some reviewed_by,
                        reviewed_at := some now }
             else u) },
         Except.ok ("KPI update " ++ toString update_id ++ " " ++ new_status))

/-! Concrete fixtures used by the witness theorems. -/

/-- A sample `kpi_master` row (scenario of spec §8). -/
def kpiA : KPIMaster :=
  { kpi_id := 1, fungsi_slug := "ict", kpi_name := "Uptime", iku := "IKU-1",
    program_prioritas := "PP-1", bobot := 1.0, target := "80", unit := "%",
    is_active := true }

/-- Initial state: one catalog row, no submissions, autoincrement at 1. -/
def db0 : DB := { kpi_master := [kpiA], kpi_updates := [], next_id := 1 }

/-- A valid submission request against `kpiA`. -/
def req0 : KPIUpdateRequest :=
  { kpi_id := 1, fungsi_slug := "ict", period := "2024-01", value := "75",
    link_evidence := "http://ev", note := "ok" }

/-- A request whose `kpi_id` matches no catalog row. -/
def reqBad : KPIUpdateRequest := { req0 with kpi_id := 99 }

/-- A request whose `fungsi_slug` differs from `kpiA`'s. -/
def reqMismatch : KPIUpdateRequest := { req0 with fungsi_slug := "hr" }

/-- State after one successful submission of `req0` against `db0`. -/
def db1 : DB := { db0 with kpi_updates := [newSubmission db0 req0], next_id := 2 }

/-- C10: the access-control check accepts a request iff its `Authorization`
header is exactly `"Bearer "` followed by the textual form of the configured
secret; with `API_TOKEN` unset the unique accepted header is the literal
`"Bearer None"`; a request with no `Authorization` header is always rejected
with 401. -/
theorem verify_token_exact_bearer (api_token authorization : Option String) :
    (verify_token api_token authorization = Except.ok () ↔
      authorization = some ("Bearer " ++ pyStr api_token)) ∧
    (verify_token none authorization = Except.ok () ↔
      authorization = some "Bearer None") ∧
    verify_token api_token none = Except.error ⟨401, "Unauthorized"⟩ := by
  refine ⟨?_, ?_, ?_⟩ <;> simp [verify_token, bearerHeader, pyStr]

/-- C4: an authorized submit call whose `kpi_id` matches no KPI Definition
fails with 404 NotFound and leaves the store unchanged (no submission row
created). -/
theorem add_kpi_update_notfound (api_token authorization : Option String)
    (request : KPIUpdateRequest) (db : DB)
    (hauth : authorization = some (bearerHeader api_token))
    (hfind : db.kpi_master.find? (fun k => k.kpi_id == request.kpi_id) = none) :
    add_kpi_update api_token authorization request db =
      (db, Except.error ⟨404, "KPI not found"⟩) := by
  simp [add_kpi_update, verify_token, hauth, hfind]

/-- C4 witness: submitting `reqBad` (KPI 99 does not exist) against `db0`
with a correct token yields 404 and the unchanged state. -/
theorem add_kpi_update_notfound_witness :
    add_kpi_update (some "secret") (some "Bearer secret") reqBad db0 =
      (db0, Except.error ⟨404, "KPI not found"⟩) :=
  add_kpi_update_notfound (some "secret") (some "Bearer secret") reqBad db0 rfl rfl

/-- C1: an authorized submit call whose `kpi_id` references an existing KPI
Definition whose `fungsi_slug` equals the request's creates exactly one new
submission row — appended to the store, with status `"submitted"` and
`reviewed_by` / `reviewed_at` null — and returns the created row's
identifier and status. -/
theorem add_kpi_update_success (api_token authorization : Option String)
    (request : KPIUpdateRequest) (db : DB) (kpi : KPIMaster)
    (hauth : authorization = some (bearerHeader api_token))
    (hfind : db.kpi_master.find? (fun k => k.kpi_id == request.kpi_id) = some kpi)
    (hslug : kpi.fungsi_slug = request.fungsi_slug) :
    add_kpi_update api_token authorization request db =
      ({ db with kpi_updates := db.kpi_updates ++ [newSubmission db request],
                 next_id := db.next_id + 1 },
       Except.ok { message := "KPI update berhasil",
                   id := (newSubmission db request).id,
                   fungsi_slug := request.fungsi_slug,
                   status := (newSubmission db request).status }) ∧
    (newSubmission db request).status = "submitted" ∧
    (newSubmission db request).reviewed_by = none ∧
    (newSubmission db request).reviewed_at = none := by
  refine ⟨?_, rfl, rfl, rfl⟩
  simp [add_kpi_update, verify_token, hauth, hfind, hslug, newSubmission]

/-- C1 witness: submitting `req0` against `db0` with a correct token appends
one `"submitted"` row with null review fields and echoes its id and
status. -/
theorem add_kpi_update_success_witness :
    add_kpi_update (some "secret") (some "Bearer secret") req0 db0 =
      (db1,
       Except.ok { message := "KPI update berhasil",
                   id := (newSubmission db0 req0).id,
                   fungsi_slug := req0.fungsi_slug,
                   status := (newSubmission db0 req0).status }) ∧
    (newSubmission db0 req0).status = "submitted" ∧
    (newSubmission db0 req0).reviewed_by = none ∧
    (newSubmission db0 req0).reviewed_at = none :=
  add_kpi_update_success (some "secret") (some "Bearer secret") req0 db0 kpiA
    rfl rfl rfl

/-- C5: an authorized submit call whose `kpi_id` references an existing KPI
Definition with a different `fungsi_slug` fails with 403 Forbidden and
leaves the store unchanged; consequently every row a successful submit
creates carries the `fungsi_slug` of its referenced definition. -/
theorem add_kpi_update_forbidden (api_token authorization : Option String)
    (request : KPIUpdateRequest) (db : DB) :
    (∀ kpi, authorization = some (bearerHeader api_token) →
      db.kpi_master.find? (fun k => k.kpi_id == request.kpi_id) = some kpi →
      kpi.fungsi_slug ≠ request.fungsi_slug →
      add_kpi_update api_token authorization request db =
        (db, Except.error ⟨403, "Tidak boleh update KPI milik fungsi lain"⟩)) ∧
    (∀ db' resp, add_kpi_update api_token authorization request db =
        (db', Except.ok resp) →
      ∃ kpi, db.kpi_master.find? (fun k => k.kpi_id == request.kpi_id) = some kpi ∧
        db'.kpi_updates = db.kpi_updates ++ [newSubmission db request] ∧
        (newSubmission db request).fungsi_slug = kpi.fungsi_slug) := by
  constructor
  · intro kpi hauth hfind hne
    simp [add_kpi_update, verify_token, hauth, hfind, hne]
  · intro db' resp h
    unfold add_kpi_update verify_token at h
    split at h
    · simp at h
    · split at h
      · simp at h
      · rename_i kpi hfind
        split at h
        · simp at h
        · rename_i hne
          refine ⟨kpi, hfind, ?_, ?_⟩
          · simp only [Prod.mk.injEq] at h
            rw [← h.1]
          · simp only [bne_iff_ne, ne_eq, not_not] at hne
            simpa [newSubmission] using hne.symm

/-- C5 witness: submitting `reqMismatch` (slug `"hr"` against `kpiA`'s
`"ict"`) with a correct token yields 403 and the unchanged state. -/
theorem add_kpi_update_forbidden_witness :
    add_kpi_update (some "secret") (some "Bearer secret") reqMismatch db0 =
      (db0, Except.error ⟨403, "Tidak boleh update KPI milik fungsi lain"⟩) :=
  (add_kpi_update_forbidden (some "secret") (some "Bearer secret") reqMismatch db0).1
    kpiA rfl rfl (by decide)

/-- C6: two authorized submits with the same `(kpi_id, period)` both
succeed; the second appends its own fresh row instead of overwriting the
first: afterwards the store holds both rows, their identifiers differ, and
the first row is still present unmodified. -/
theorem add_kpi_update_no_overwrite (api_token authorization : Option String)
    (req1 req2 : KPIUpdateRequest) (db : DB) (kpi : KPIMaster)
    (hauth : authorization = some (bearerHeader api_token))
    (hfind : db.kpi_master.find? (fun k => k.kpi_id == req1.kpi_id) = some kpi)
    (hslug1 : kpi.fungsi_slug = req1.fungsi_slug)
    (hkpi : req2.kpi_id = req1.kpi_id)
    (hperiod : req2.period = req1.period)
    (hslug2 : kpi.fungsi_slug = req2.fungsi_slug) :
    ∃ st1 resp1 st2 resp2,
      add_kpi_update api_token authorization req1 db = (st1, Except.ok resp1) ∧
      add_kpi_update api_token authorization req2 st1 = (st2, Except.ok resp2) ∧
      st2.kpi_updates =
        db.kpi_updates ++ [newSubmission db req1, newSubmission st1 req2] ∧
      (newSubmission db req1).id ≠ (newSubmission st1 req2).id ∧
      newSubmission db req1 ∈ st2.kpi_updates := by
  have hfind2 : db.kpi_master.find? (fun k => k.kpi_id == req2.kpi_id) = some kpi := by
    rw [hkpi]; exact hfind
  have h1 : add_kpi_update api_token authorization req1 db =
      (⟨db.kpi_master, db.kpi_updates ++ [newSubmission db req1], db.next_id + 1⟩,
       Except.ok ⟨"KPI update berhasil", db.next_id, req1.fungsi_slug, "submitted"⟩) := by
    simp [add_kpi_update, verify_token, hauth, hfind, hslug1, newSubmission]
  have h2 : add_kpi_update api_token authorization req2
      ⟨db.kpi_master, db.kpi_updates ++ [newSubmission db req1], db.next_id + 1⟩ =
      (⟨db.kpi_master,
        (db.kpi_updates ++ [newSubmission db req1]) ++
          [newSubmission
            ⟨db.kpi_master, db.kpi_updates ++ [newSubmission db req1],
              db.next_id + 1⟩ req2],
        db.next_id + 1 + 1⟩,
       Except.ok ⟨"KPI update berhasil", db.next_id + 1, req2.fungsi_slug,
        "submitted"⟩) := by
    simp [add_kpi_update, verify_token, hauth, hfind2, hslug2, newSubmission]
  refine ⟨_, _, _, _, h1, h2, ?_, ?_, ?_⟩
  · simp
  · simp only [newSubmission]
    omega
  · simp [newSubmission]

/-- C6 witness: submitting `req0` twice against `db0` with a correct token
yields two retained rows with distinct identifiers. -/
theorem add_kpi_update_no_overwrite_witness :
    ∃ st1 resp1 st2 resp2,
      add_kpi_update (some "secret") (some "Bearer secret") req0 db0 =
        (st1, Except.ok resp1) ∧
      add_kpi_update (some "secret") (some "Bearer secret") req0 st1 =
        (st2, Except.ok resp2) ∧
      st2.kpi_updates =
        db0.kpi_updates ++ [newSubmission db0 req0, newSubmission st1 req0] ∧
      (newSubmission db0 req0).id ≠ (newSubmission st1 req0).id ∧
      newSubmission db0 req0 ∈ st2.kpi_updates :=
  add_kpi_update_no_overwrite (some "secret") (some "Bearer secret") req0 req0
    db0 kpiA rfl rfl rfl rfl rfl rfl

/-- C7: the two mutating operations succeed only under the exact bearer
credential and fail 401 with the store untouched on any other credential
(including a missing header), while the read operations take no credential
at all — each is a total function of the store (and path parameter)
alone. -/
theorem auth_gate_mutating_only (api_token authorization : Option String)
    (request : KPIUpdateRequest) (update_id : Int)
    (new_status reviewed_by now slug : String) (db : DB) :
    (authorization ≠ some (bearerHeader api_token) →
      add_kpi_update api_token authorization request db =
        (db, Except.error ⟨401, "Unauthorized"⟩) ∧
      review_kpi api_token authorization update_id new_status reviewed_by now db =
        (db, Except.error ⟨401, "Unauthorized"⟩)) ∧
    (∀ db' resp, add_kpi_update api_token authorization request db =
        (db', Except.ok resp) → authorization = some (bearerHeader api_token)) ∧
    (∀ db' msg, review_kpi api_token authorization update_id new_status reviewed_by now db =
        (db', Except.ok msg) → authorization = some (bearerHeader api_token)) ∧
    get_kpi db = db.kpi_master ∧
    get_kpi_by_fungsi slug db =
      db.kpi_master.filter (fun k => k.fungsi_slug == slug) ∧
    get_kpi_updates_by_fungsi slug db =
      db.kpi_updates.filter (fun u => u.fungsi_slug == slug) ∧
    get_kpi_master_by_fungsi slug db =
      db.kpi_master.filter (fun k => k.fungsi_slug == slug) ∧
    root = "Super KPI API running" := by
  refine ⟨?_, ?_, ?_, rfl, rfl, rfl, rfl, rfl⟩
  · intro hne
    constructor <;> simp [add_kpi_update, review_kpi, verify_token, hne]
  · intro db' resp h
    by_contra hne
    simp [add_kpi_update, verify_token, hne] at h
  · intro db' msg h
    by_contra hne
    simp [review_kpi, verify_token, hne] at h

/-- C8: `GET /kpi/{fungsi_slug}` returns exactly the catalog rows whose
`fungsi_slug` equals the path parameter; every stored definition appears in
the listing for its own slug; a slug matching nothing yields the empty list
rather than an error. -/
theorem get_kpi_by_fungsi_spec (slug : String) (db : DB) :
    (∀ D, D ∈ get_kpi_by_fungsi slug db ↔
      D ∈ db.kpi_master ∧ D.fungsi_slug = slug) ∧
    (∀ D, D ∈ db.kpi_master → D ∈ get_kpi_by_fungsi D.fungsi_slug db) ∧
    ((∀ D ∈ db.kpi_master, D.fungsi_slug ≠ slug) →
      get_kpi_by_fungsi slug db = []) := by
  refine ⟨?_, ?_, ?_⟩
  · intro D
    simp [get_kpi_by_fungsi, List.mem_filter]
  · intro D hD
    simp [get_kpi_by_fungsi, List.mem_filter, hD]
  · intro h
    rw [get_kpi_by_fungsi, List.filter_eq_nil_iff]
    intro a ha
    simpa using h a ha

/-- C9: no operation creates, mutates or deletes a `kpi_master` row: the two
mutating operations return a state with the catalog component unchanged on
every path (and the read operations return data without producing a new
state at all). -/
theorem kpi_master_immutable (api_token authorization : Option String)
    (request : KPIUpdateRequest) (update_id : Int)
    (new_status reviewed_by now : String) (db : DB) :
    (add_kpi_update api_token authorization request db).1.kpi_master =
      db.kpi_master ∧
    (review_kpi api_token authorization update_id new_status reviewed_by now
      db).1.kpi_master = db.kpi_master := by
  constructor
  · unfold add_kpi_update verify_token
    repeat' split
    all_goals rfl
  · unfold review_kpi verify_token
    repeat' split
    all_goals rfl

/-- C2: an authorized review call referencing an existing submission with
`new_status` in {"approved", "rejected"} sets that submission's status,
reviewer identity and review timestamp (to the supplied current-time string,
hence non-null), and returns a confirmation message naming the submission
identifier and resulting status. -/
theorem review_kpi_success (api_token authorization : Option String)
    (update_id : Int) (new_status reviewed_by now : String) (db : DB)
    (u0 : KPIUpdates)
    (hauth : authorization = some (bearerHeader api_token))
    (hfind : db.kpi_updates.find? (fun u => u.id == update_id) = some u0)
    (hstatus : new_status = "approved" ∨ new_status = "rejected") :
    review_kpi api_token authorization update_id new_status reviewed_by now db =
      ({ db with kpi_updates := db.kpi_updates.map (fun v =>
          if v.id == update_id then
            { v with status := new_status, reviewed_by := some reviewed_by,
                     reviewed_at := some now }
          else v) },
       Except.ok ("KPI update " ++ toString update_id ++ " " ++ new_status)) ∧
    (∀ u, u ∈ db.kpi_updates.map (fun v =>
        if v.id == update_id then
          { v with status := new_status, reviewed_by := some reviewed_by,
                   reviewed_at := some now }
        else v) →
      u.id = update_id →
      u.status = new_status ∧ u.reviewed_by = some reviewed_by ∧
        u.reviewed_at = some now) ∧
    (some now : Option String) ≠ none := by
  refine ⟨?_, ?_, by simp⟩
  · rcases hstatus with h | h <;>
      simp [review_kpi, verify_token, hauth, hfind, h]
  · intro u hu hid
    obtain ⟨v, hv, rfl⟩ := List.mem_map.1 hu
    by_cases hvid : (v.id == update_id) = true
    · simp [hvid]
    · rw [if_neg hvid] at hid
      exact absurd (beq_iff_eq.2 hid) hvid

/-- C2 witness: reviewing submission 1 of `db1` as "approved" by "manager"
at a concrete time stamps status, reviewer and a non-null timestamp and
returns the confirmation message. -/
theorem review_kpi_success_witness :
    review_kpi (some "secret") (some "Bearer secret") 1 "approved" "manager"
      "2024-02-01T00:00:00Z" db1 =
      ({ db1 with kpi_updates := db1.kpi_updates.map (fun v =>
          if v.id == 1 then
            { v with status := "approved", reviewed_by := some "manager",
                     reviewed_at := some "2024-02-01T00:00:00Z" }
          else v) },
       Except.ok ("KPI update " ++ toString (1 : Int) ++ " " ++ "approved")) ∧
    (∀ u, u ∈ db1.kpi_updates.map (fun v =>
        if v.id == 1 then
          { v with status := "approved", reviewed_by := some "manager",
                   reviewed_at := some "2024-02-01T00:00:00Z" }
        else v) →
      u.id = 1 →
      u.status = "approved" ∧ u.reviewed_by = some "manager" ∧
        u.reviewed_at = some "2024-02-01T00:00:00Z") ∧
    (some "2024-02-01T00:00:00Z" : Option String) ≠ none :=
  review_kpi_success (some "secret") (some "Bearer secret") 1 "approved"
    "manager" "2024-02-01T00:00:00Z" db1 (newSubmission db0 req0)
    rfl rfl (Or.inl rfl)

/-- C3: an authorized review call referencing no existing submission fails
with 404 NotFound; one referencing an existing submission with `new_status`
outside {"approved", "rejected"} fails with 400 InvalidArgument and leaves
the store (hence the referenced submission) unchanged. -/
theorem review_kpi_errors (api_token authorization : Option String)
    (update_id : Int) (new_status reviewed_by now : String) (db : DB)
    (hauth : authorization = some (bearerHeader api_token)) :
    (db.kpi_updates.find? (fun u => u.id == update_id) = none →
      review_kpi api_token authorization update_id new_status reviewed_by now db =
        (db, Except.error ⟨404, "Update not found"⟩)) ∧
    (∀ u0, db.kpi_updates.find? (fun u => u.id == update_id) = some u0 →
      new_status ≠ "approved" → new_status ≠ "rejected" →
      review_kpi api_token authorization update_id new_status reviewed_by now db =
        (db, Except.error ⟨400, "Invalid status"⟩)) := by
  constructor
  · intro hfind
    simp [review_kpi, verify_token, hauth, hfind]
  · intro u0 hfind h1 h2
    simp [review_kpi, verify_token, hauth, hfind, h1, h2]

/-- C3 witness: reviewing submission 1 of `db1` with the out-of-range status
"pending" fails 400 with the state unchanged (and the not-found branch is
stated for the same inputs). -/
theorem review_kpi_errors_witness :
    (db1.kpi_updates.find? (fun u => u.id == (1 : Int)) = none →
      review_kpi (some "secret") (some "Bearer secret") 1 "pending" "manager"
        "2024-02-01T00:00:00Z" db1 =
        (db1, Except.error ⟨404, "Update not found"⟩)) ∧
    (∀ u0, db1.kpi_updates.find? (fun u => u.id == (1 : Int)) = some u0 →
      ("pending" : String) ≠ "approved" → ("pending" : String) ≠ "rejected" →
      review_kpi (some "secret") (some "Bearer secret") 1 "pending" "manager"
        "2024-02-01T00:00:00Z" db1 =
        (db1, Except.error ⟨400, "Invalid status"⟩)) :=
  review_kpi_errors (some "secret") (some "Bearer secret") 1 "pending"
    "manager" "2024-02-01T00:00:00Z" db1 rfl

end SuperKPI
